import Mathlib

/-!
Verification of the two heartbeat sender scripts, `heartbeat.py` (variant A)
and `heartbeat_client.py` (variant B).  Each script parses `--host` and
`--port`, opens one TCP socket, connects, and on success loops
`sendall(b"heartbeat\n"); sleep(2)` forever, with a small set of exception
handlers around the loop.

The embedding is a big-step trace semantics of each script's `main`, after
argument parsing.  The environment supplies the outcome of the connect call
and, optionally, the single exception that interrupts the send/sleep loop
(at which iteration, during the send or during the sleep, and which Python
exception class).  A run either terminates with a `RunResult` (the sequence
of socket/timer events performed, the lines the program printed, the process
exit status, and whether termination was an unhandled exception) or runs
forever (`none`).
-/

/-- Python exception classes relevant to the two scripts.  `osError` stands
for an `OSError` outside the three connection-teardown subclasses, and
`otherError` for any other `Exception` subclass. -/
inductive PyExc where
  | connectionResetError
  | connectionAbortedError
  | brokenPipeError
  | connectionRefusedError
  | keyboardInterrupt
  | osError
  | otherError
deriving DecidableEq

/-- Whether the exception class is a subclass of Python's `Exception`.
`KeyboardInterrupt` derives from `BaseException` only, so an
`except Exception` clause does not catch it. -/
def PyExc.isException : PyExc → Bool
  | .keyboardInterrupt => false
  | _ => true

/-- The tuple `(BrokenPipeError, ConnectionResetError)` matched by the
`except` clause of `heartbeat.py` (line 18). -/
def caughtByHeartbeatExcept : PyExc → Bool
  | .brokenPipeError => true
  | .connectionResetError => true
  | _ => false

/-- The tuple `(ConnectionResetError, ConnectionAbortedError, BrokenPipeError)`
matched by the inner `except` clause of `heartbeat_client.py` (line 22). -/
def caughtByClientInnerExcept : PyExc → Bool
  | .connectionResetError => true
  | .connectionAbortedError => true
  | .brokenPipeError => true
  | _ => false

/-- Where in a loop iteration the interrupting exception is raised:
during the `s.sendall(...)` call (before the payload is written) or during
the `time.sleep(2)` call (after the iteration's payload was written). -/
inductive FaultPoint where
  | duringSend
  | duringSleep
deriving DecidableEq

/-- The environment of one process run: the outcome of `s.connect` (`none`
means the connect succeeds) and the single exception, if any, that interrupts
the send/sleep loop (`some (n, pt, e)` means iteration `n`, counted from 0,
raises `e` at point `pt`; `none` means no exception is ever raised, so the
loop runs forever). -/
structure Env where
  connectErr : Option PyExc
  fault : Option (Nat × FaultPoint × PyExc)
deriving DecidableEq

/-- Observable events a run performs on its socket and timer, in order. -/
inductive Event where
  | create
  | connectTo (host : String) (port : Int)
  | send (payload : List Nat)
  | sleep (secs : Nat)
  | recv
  | close
deriving DecidableEq

/-- The bytes of the literal `b"heartbeat\n"` sent by both scripts. -/
def heartbeatPayload : List Nat := ("heartbeat\n").data.map Char.toNat

/-- Events of one completed loop iteration: one send of the payload,
then one two-second sleep. -/
def iterBlock : List Event := [Event.send heartbeatPayload, Event.sleep 2]

/-- Events of `n` completed loop iterations. -/
def completedIters (n : Nat) : List Event := (List.replicate n iterBlock).flatten

/-- Events performed inside the loop when iteration `n` raises at `pt`:
`n` completed iterations, plus iteration `n`'s send when the fault strikes
during the sleep. -/
def faultEvents (n : Nat) (pt : FaultPoint) : List Event :=
  match pt with
  | .duringSend => completedIters n
  | .duringSleep => completedIters n ++ [Event.send heartbeatPayload]

/-- Result of a terminating run: events performed, lines printed by the
program itself (not runtime tracebacks), the process exit status, and
whether the process died of an unhandled exception. -/
structure RunResult where
  events : List Event
  printed : List String
  exitCode : Nat
  uncaught : Bool
deriving DecidableEq

/-- Printed by both scripts right after a successful connect. -/
def connectedMsg : String := "Python: Connected to QuPath workflow, sending heartbeats."

/-- Printed by `heartbeat.py` when its except clause catches a disconnect. -/
def disconnectedMsgA : String := "Python: QuPath disconnected or closed. Exiting."

/-- Printed by `heartbeat.py` when it catches `KeyboardInterrupt`. -/
def interruptedMsgA : String := "Python: Interrupted, exiting."

/-- Printed by `heartbeat_client.py` when its inner except clause catches
a disconnect. -/
def lostMsgB : String := "Python: Lost connection to QuPath workflow, exiting."

/-- The Python class name of an exception, as it appears in messages. -/
def excText : PyExc → String
  | .connectionResetError => "ConnectionResetError"
  | .connectionAbortedError => "ConnectionAbortedError"
  | .brokenPipeError => "BrokenPipeError"
  | .connectionRefusedError => "ConnectionRefusedError"
  | .keyboardInterrupt => "KeyboardInterrupt"
  | .osError => "OSError"
  | .otherError => "Exception"

/-- Printed by `heartbeat_client.py`'s outer `except Exception as ex` clause. -/
def couldNotConnectMsg (e : PyExc) : String :=
  "Python: Could not connect to QuPath: " ++ excText e

/-- Big-step semantics of `main` in `heartbeat.py` (variant A), after
argument parsing.  The `with socket.socket(...) as s` block closes the
socket on every way out, including a propagating exception.  A failing
`connect` has no handler, so it propagates out of `main` unhandled
(CPython then prints a traceback and exits with status 1).  After the
connect, the `try` around the loop catches `(BrokenPipeError,
ConnectionResetError)` and `KeyboardInterrupt`, printing one line each and
returning normally (exit 0); any other exception propagates unhandled. -/
def heartbeatRun (host : String) (port : Int) (env : Env) : Option RunResult :=
  match env.connectErr with
  | some _ =>
      some { events := [Event.create, Event.connectTo host port, Event.close],
             printed := [], exitCode := 1, uncaught := true }
  | none =>
      match env.fault with
      | none => none
      | some (n, pt, e) =>
          let evs := Event.create :: Event.connectTo host port :: (faultEvents n pt ++ [Event.close])
          if caughtByHeartbeatExcept e then
            some { events := evs, printed := [connectedMsg, disconnectedMsgA],
                   exitCode := 0, uncaught := false }
          else if e = PyExc.keyboardInterrupt then
            some { events := evs, printed := [connectedMsg, interruptedMsgA],
                   exitCode := 0, uncaught := false }
          else
            some { events := evs, printed := [connectedMsg],
                   exitCode := 1, uncaught := true }

/-- Big-step semantics of `main` in `heartbeat_client.py` (variant B), after
argument parsing.  The socket is created before the `try`, and the `finally`
closes it on every way out of the block.  A failing connect that is an
`Exception` is caught by the outer `except Exception as ex` clause, which
prints the could-not-connect line and calls `sys.exit(1)`.  Inside the loop,
the inner except clause catches the three disconnect classes, prints one
line and breaks, after which `main` returns normally (exit 0).  Any other
`Exception` escaping the loop reaches the outer clause (same print, exit 1).
`KeyboardInterrupt` is not an `Exception`, so it is caught nowhere and
propagates unhandled after the `finally` closes the socket. -/
def heartbeatClientRun (host : String) (port : Int) (env : Env) : Option RunResult :=
  match env.connectErr with
  | some e =>
      if e.isException then
        some { events := [Event.create, Event.connectTo host port, Event.close],
               printed := [couldNotConnectMsg e], exitCode := 1, uncaught := false }
      else
        some { events := [Event.create, Event.connectTo host port, Event.close],
               printed := [], exitCode := 1, uncaught := true }
  | none =>
      match env.fault with
      | none => none
      | some (n, pt, e) =>
          let evs := Event.create :: Event.connectTo host port :: (faultEvents n pt ++ [Event.close])
          if caughtByClientInnerExcept e then
            some { events := evs, printed := [connectedMsg, lostMsgB],
                   exitCode := 0, uncaught := false }
          else if e.isException then
            some { events := evs, printed := [connectedMsg, couldNotConnectMsg e],
                   exitCode := 1, uncaught := false }
          else
            some { events := evs, printed := [connectedMsg],
                   exitCode := 1, uncaught := true }

/-- Events visible on the wire or the timer: sends and sleeps. -/
def isWireEvent : Event → Bool
  | .send _ => true
  | .sleep _ => true
  | _ => false

/-- The wire-and-cadence trace of a terminating run. -/
def wireEvents (r : RunResult) : List Event := r.events.filter isWireEvent

/-- Checks that a list of events is an alternation send-payload, sleep-2,
send-payload, sleep-2, ..., possibly ending right after a send. -/
def isSendSleepAlt : List Event → Bool
  | [] => true
  | [Event.send p] => decide (p = heartbeatPayload)
  | Event.send p :: Event.sleep s :: rest =>
      decide (p = heartbeatPayload) && decide (s = 2) && isSendSleepAlt rest
  | _ => false

theorem completedIters_succ (n : Nat) :
    completedIters (n + 1) = iterBlock ++ completedIters n := by
  simp [completedIters, List.replicate_succ]

theorem mem_iterBlock {ev : Event} (h : ev ∈ iterBlock) :
    ev = Event.send heartbeatPayload ∨ ev = Event.sleep 2 := by
  simpa [iterBlock] using h

theorem mem_completedIters :
    ∀ {n : Nat} {ev : Event}, ev ∈ completedIters n →
      ev = Event.send heartbeatPayload ∨ ev = Event.sleep 2
  | 0, _, h => by simp [completedIters] at h
  | n + 1, ev, h => by
      rw [completedIters_succ] at h
      rcases List.mem_append.mp h with h | h
      · exact mem_iterBlock h
      · exact mem_completedIters h

theorem mem_faultEvents {n : Nat} {pt : FaultPoint} {ev : Event}
    (h : ev ∈ faultEvents n pt) :
    ev = Event.send heartbeatPayload ∨ ev = Event.sleep 2 := by
  cases pt with
  | duringSend => exact mem_completedIters h
  | duringSleep =>
      rcases List.mem_append.mp h with h | h
      · exact mem_completedIters h
      · left; simpa using h

theorem isSendSleepAlt_completedIters :
    ∀ n : Nat, isSendSleepAlt (completedIters n) = true
  | 0 => rfl
  | n + 1 => by
      rw [completedIters_succ]
      simp [iterBlock, isSendSleepAlt, isSendSleepAlt_completedIters n]

theorem isSendSleepAlt_concat_send :
    ∀ n : Nat, isSendSleepAlt (completedIters n ++ [Event.send heartbeatPayload]) = true
  | 0 => by simp [completedIters, isSendSleepAlt]
  | n + 1 => by
      rw [completedIters_succ, List.append_assoc]
      simp [iterBlock, isSendSleepAlt, isSendSleepAlt_concat_send n]

theorem isSendSleepAlt_faultEvents (n : Nat) (pt : FaultPoint) :
    isSendSleepAlt (faultEvents n pt) = true := by
  cases pt
  · exact isSendSleepAlt_completedIters n
  · exact isSendSleepAlt_concat_send n

theorem count_faultEvents_eq_zero {ev : Event}
    (h1 : ev ≠ Event.send heartbeatPayload) (h2 : ev ≠ Event.sleep 2)
    (n : Nat) (pt : FaultPoint) : (faultEvents n pt).count ev = 0 :=
  List.count_eq_zero.mpr (fun hm => by
    rcases mem_faultEvents hm with h | h
    · exact h1 h
    · exact h2 h)

theorem not_mem_faultEvents {ev : Event}
    (h1 : ev ≠ Event.send heartbeatPayload) (h2 : ev ≠ Event.sleep 2)
    (n : Nat) (pt : FaultPoint) : ev ∉ faultEvents n pt := fun hm => by
  rcases mem_faultEvents hm with h | h
  · exact h1 h
  · exact h2 h

example : heartbeatPayload = [104, 101, 97, 114, 116, 98, 101, 97, 116, 10] := by decide

example : heartbeatRun "h" 1 ⟨none, some (2, .duringSend, .connectionResetError)⟩ =
    some { events := [Event.create, Event.connectTo "h" 1,
                      Event.send heartbeatPayload, Event.sleep 2,
                      Event.send heartbeatPayload, Event.sleep 2, Event.close],
           printed := [connectedMsg, disconnectedMsgA], exitCode := 0, uncaught := false } := by
  decide

theorem heartbeatRun_shape (host : String) (port : Int) (env : Env) (r : RunResult)
    (hr : heartbeatRun host port env = some r) :
    (∃ e, env.connectErr = some e ∧
        r.events = [Event.create, Event.connectTo host port, Event.close]) ∨
    (∃ n pt e, env.connectErr = none ∧ env.fault = some (n, pt, e) ∧
        r.events = Event.create :: Event.connectTo host port ::
          (faultEvents n pt ++ [Event.close])) := by
  obtain ⟨ce, f⟩ := env
  rcases ce with _ | e
  · rcases f with _ | ⟨n, pt, e⟩
    · exact absurd hr (by simp [heartbeatRun])
    · refine Or.inr ⟨n, pt, e, rfl, rfl, ?_⟩
      cases e <;> simp [heartbeatRun, caughtByHeartbeatExcept] at hr <;>
        simp [← hr]
  · refine Or.inl ⟨e, rfl, ?_⟩
    simp [heartbeatRun] at hr
    simp [← hr]

theorem heartbeatClientRun_shape (host : String) (port : Int) (env : Env) (r : RunResult)
    (hr : heartbeatClientRun host port env = some r) :
    (∃ e, env.connectErr = some e ∧
        r.events = [Event.create, Event.connectTo host port, Event.close]) ∨
    (∃ n pt e, env.connectErr = none ∧ env.fault = some (n, pt, e) ∧
        r.events = Event.create :: Event.connectTo host port ::
          (faultEvents n pt ++ [Event.close])) := by
  obtain ⟨ce, f⟩ := env
  rcases ce with _ | e
  · rcases f with _ | ⟨n, pt, e⟩
    · exact absurd hr (by simp [heartbeatClientRun])
    · refine Or.inr ⟨n, pt, e, rfl, rfl, ?_⟩
      cases e <;>
        simp [heartbeatClientRun, caughtByClientInnerExcept, PyExc.isException] at hr <;>
        simp [← hr]
  · refine Or.inl ⟨e, rfl, ?_⟩
    cases e <;> simp [heartbeatClientRun, PyExc.isException] at hr <;> simp [← hr]

theorem recv_not_mem_of_fault_shape (host : String) (port : Int) (n : Nat)
    (pt : FaultPoint) :
    Event.recv ∉ Event.create :: Event.connectTo host port ::
      (faultEvents n pt ++ [Event.close]) := by
  have h : Event.recv ∉ faultEvents n pt :=
    not_mem_faultEvents (by simp) (by simp) n pt
  simp [h]

theorem alt_of_fault_shape (host : String) (port : Int) (n : Nat) (pt : FaultPoint) :
    isSendSleepAlt (((Event.create :: Event.connectTo host port ::
      (faultEvents n pt ++ [Event.close])).drop 2).dropLast) = true := by
  simpa [List.dropLast_concat] using isSendSleepAlt_faultEvents n pt

/-- C1: in every run in which the connect succeeds, both variants send exactly
the 10-byte sequence `heartbeat\n` and then sleep 2 seconds, alternating in
that order; when no exception ever occurs the loop runs forever (no
terminating run exists); and no run ever performs a read from the peer. -/
theorem c1_loop_sends_heartbeat_then_sleeps (host : String) (port : Int) (env : Env)
    (hc : env.connectErr = none) :
    heartbeatPayload.length = 10 ∧
    (env.fault = none →
      heartbeatRun host port env = none ∧ heartbeatClientRun host port env = none) ∧
    (∀ r, heartbeatRun host port env = some r →
      Event.recv ∉ r.events ∧ isSendSleepAlt ((r.events.drop 2).dropLast) = true) ∧
    (∀ r, heartbeatClientRun host port env = some r →
      Event.recv ∉ r.events ∧ isSendSleepAlt ((r.events.drop 2).dropLast) = true) := by
  obtain ⟨ce, f⟩ := env
  obtain rfl : ce = none := hc
  refine ⟨by decide, ?_, ?_, ?_⟩
  · intro hf
    obtain rfl : f = none := hf
    exact ⟨rfl, rfl⟩
  · intro r hr
    rcases heartbeatRun_shape host port ⟨none, f⟩ r hr with
      ⟨e, he, _⟩ | ⟨n, pt, e, _, _, hev⟩
    · exact Option.noConfusion he
    · rw [hev]
      exact ⟨recv_not_mem_of_fault_shape host port n pt, alt_of_fault_shape host port n pt⟩
  · intro r hr
    rcases heartbeatClientRun_shape host port ⟨none, f⟩ r hr with
      ⟨e, he, _⟩ | ⟨n, pt, e, _, _, hev⟩
    · exact Option.noConfusion he
    · rw [hev]
      exact ⟨recv_not_mem_of_fault_shape host port n pt, alt_of_fault_shape host port n pt⟩

/-- C1 witness: with a successful connect and no fault, neither variant's run
terminates, at the concrete endpoint and environment below. -/
theorem c1_loop_sends_heartbeat_then_sleeps_w :
    heartbeatRun "localhost" 9999 { connectErr := none, fault := none } = none ∧
    heartbeatClientRun "localhost" 9999 { connectErr := none, fault := none } = none :=
  (c1_loop_sends_heartbeat_then_sleeps "localhost" 9999
    { connectErr := none, fault := none } rfl).2.1 rfl

/-- C2 counterexample: in `heartbeat.py` a `ConnectionAbortedError` raised by
the first send is not caught (line 18 catches only `BrokenPipeError` and
`ConnectionResetError`): the run ends as an unhandled fault with exit status 1
and without the disconnect message, so the claim that both variants catch
all three disconnect errors and exit 0 is false. -/
theorem c2_aborted_uncaught_in_heartbeat :
    (heartbeatRun "localhost" 9999
        { connectErr := none,
          fault := some (0, FaultPoint.duringSend, PyExc.connectionAbortedError) }).map
      (fun r => (r.uncaught, r.exitCode, r.printed)) =
    some (true, 1, [connectedMsg]) := by
  rfl

/-- C2 amended: a send failure from any of the three disconnect errors is
caught in `heartbeat_client.py` (one message, exit 0); in `heartbeat.py` only
`ConnectionResetError` and `BrokenPipeError` are caught (one message, exit 0),
while `ConnectionAbortedError` propagates as an unhandled fault with non-zero
exit status. -/
theorem c2_disconnect_handling_amended (host : String) (port : Int) (env : Env)
    (n : Nat) (pt : FaultPoint) (e : PyExc)
    (hc : env.connectErr = none) (hf : env.fault = some (n, pt, e)) :
    (caughtByClientInnerExcept e = true →
      ∃ r, heartbeatClientRun host port env = some r ∧
        r.exitCode = 0 ∧ r.uncaught = false ∧ r.printed = [connectedMsg, lostMsgB]) ∧
    (caughtByHeartbeatExcept e = true →
      ∃ r, heartbeatRun host port env = some r ∧
        r.exitCode = 0 ∧ r.uncaught = false ∧ r.printed = [connectedMsg, disconnectedMsgA]) ∧
    (e = PyExc.connectionAbortedError →
      ∃ r, heartbeatRun host port env = some r ∧
        r.uncaught = true ∧ r.exitCode = 1 ∧ disconnectedMsgA ∉ r.printed) := by
  obtain ⟨ce, f⟩ := env
  obtain rfl : ce = none := hc
  obtain rfl : f = some (n, pt, e) := hf
  refine ⟨?_, ?_, ?_⟩
  · intro hcaught
    cases e <;> simp_all [caughtByClientInnerExcept] <;>
      exact ⟨_, rfl, rfl, rfl, rfl⟩
  · intro hcaught
    cases e <;> simp_all [caughtByHeartbeatExcept] <;>
      exact ⟨_, rfl, rfl, rfl, rfl⟩
  · intro he
    subst he
    exact ⟨_, rfl, rfl, rfl, by simp [connectedMsg, disconnectedMsgA]⟩

/-- C2 amended witness: instantiation at a concrete endpoint and environment,
for a `ConnectionResetError` at the third loop iteration. -/
theorem c2_disconnect_handling_amended_w :
    (∃ r, heartbeatClientRun "localhost" 9999
        { connectErr := none,
          fault := some (2, FaultPoint.duringSleep, PyExc.connectionResetError) } = some r ∧
      r.exitCode = 0 ∧ r.uncaught = false ∧ r.printed = [connectedMsg, lostMsgB]) ∧
    (∃ r, heartbeatRun "localhost" 9999
        { connectErr := none,
          fault := some (2, FaultPoint.duringSleep, PyExc.connectionResetError) } = some r ∧
      r.exitCode = 0 ∧ r.uncaught = false ∧ r.printed = [connectedMsg, disconnectedMsgA]) :=
  ⟨(c2_disconnect_handling_amended "localhost" 9999 _ 2 FaultPoint.duringSleep
      PyExc.connectionResetError rfl rfl).1 rfl,
   (c2_disconnect_handling_amended "localhost" 9999 _ 2 FaultPoint.duringSleep
      PyExc.connectionResetError rfl rfl).2.1 rfl⟩

/-- C3 counterexample: when the connect fails with `ConnectionRefusedError`,
both variants terminate with exit status 1, so no variant exits with status 0;
moreover `heartbeat.py` prints nothing itself (the connect has no handler, so
only the runtime traceback appears), refuting that both variants print a
failure message before exit. -/
theorem c3_both_variants_exit_nonzero_on_connect_failure :
    (heartbeatRun "localhost" 9999
        { connectErr := some PyExc.connectionRefusedError, fault := none }).map
      (fun r => (r.exitCode, r.uncaught, r.printed)) = some (1, true, []) ∧
    (heartbeatClientRun "localhost" 9999
        { connectErr := some PyExc.connectionRefusedError, fault := none }).map
      (fun r => (r.exitCode, r.uncaught, r.printed)) =
      some (1, false, [couldNotConnectMsg PyExc.connectionRefusedError]) := by
  exact ⟨rfl, rfl⟩

/-- C3 amended: when the initial connect fails, both variants exit with a
non-zero status (1).  `heartbeat_client.py` catches the error (when it is an
`Exception`), prints the could-not-connect line, and exits 1 via `sys.exit`;
`heartbeat.py` has no handler around the connect, prints no message of its
own, and terminates with the exception unhandled. -/
theorem c3_connect_failure_amended (host : String) (port : Int) (env : Env)
    (e : PyExc) (hc : env.connectErr = some e) :
    (∃ r, heartbeatRun host port env = some r ∧
      r.exitCode = 1 ∧ r.uncaught = true ∧ r.printed = []) ∧
    (e.isException = true →
      ∃ r, heartbeatClientRun host port env = some r ∧
        r.exitCode = 1 ∧ r.uncaught = false ∧ r.printed = [couldNotConnectMsg e]) := by
  obtain ⟨ce, f⟩ := env
  obtain rfl : ce = some e := hc
  refine ⟨⟨_, rfl, rfl, rfl, rfl⟩, ?_⟩
  intro he
  cases e <;> simp_all [PyExc.isException] <;> exact ⟨_, rfl, rfl, rfl, rfl⟩

/-- C3 amended witness: instantiation at a concrete endpoint with the connect
refused. -/
theorem c3_connect_failure_amended_w :
    ∃ r, heartbeatClientRun "localhost" 9999
        { connectErr := some PyExc.connectionRefusedError, fault := none } = some r ∧
      r.exitCode = 1 ∧ r.uncaught = false ∧
      r.printed = [couldNotConnectMsg PyExc.connectionRefusedError] :=
  (c3_connect_failure_amended "localhost" 9999
    { connectErr := some PyExc.connectionRefusedError, fault := none }
    PyExc.connectionRefusedError rfl).2 rfl

/-- C4 counterexample: in `heartbeat_client.py` a `KeyboardInterrupt` during
the sleep of the first iteration is caught by no handler (`except Exception`
does not match `KeyboardInterrupt`): the process terminates with an unhandled
fault, exit status 1, and no interruption message is printed. -/
theorem c4_client_interrupt_unhandled :
    (heartbeatClientRun "localhost" 9999
        { connectErr := none,
          fault := some (0, FaultPoint.duringSleep, PyExc.keyboardInterrupt) }).map
      (fun r => (r.uncaught, r.exitCode, r.printed)) =
    some (true, 1, [connectedMsg]) := by
  rfl

/-- C4 amended: a `KeyboardInterrupt` after connection establishment is caught
only in `heartbeat.py`, which prints the interruption message and exits 0; in
`heartbeat_client.py` it is caught by no clause, no interruption message is
printed, and the process terminates with an unhandled fault (non-zero exit),
though the `finally` still closes the socket. -/
theorem c4_interrupt_amended (host : String) (port : Int) (env : Env)
    (n : Nat) (pt : FaultPoint)
    (hc : env.connectErr = none)
    (hf : env.fault = some (n, pt, PyExc.keyboardInterrupt)) :
    (∃ r, heartbeatRun host port env = some r ∧
      r.exitCode = 0 ∧ r.uncaught = false ∧
      r.printed = [connectedMsg, interruptedMsgA]) ∧
    (∃ r, heartbeatClientRun host port env = some r ∧
      r.uncaught = true ∧ r.exitCode = 1 ∧
      interruptedMsgA ∉ r.printed ∧ r.events.getLast? = some Event.close) := by
  obtain ⟨ce, f⟩ := env
  obtain rfl : ce = none := hc
  obtain rfl : f = some (n, pt, PyExc.keyboardInterrupt) := hf
  refine ⟨⟨_, rfl, rfl, rfl, rfl⟩, ⟨_, rfl, rfl, rfl, ?_, ?_⟩⟩
  · simp [connectedMsg, interruptedMsgA]
  · show (Event.create :: Event.connectTo host port ::
      (faultEvents n pt ++ [Event.close])).getLast? = some Event.close
    have h : ((Event.create :: Event.connectTo host port :: faultEvents n pt) ++
        [Event.close]).getLast? = some Event.close := List.getLast?_concat _
    simpa using h

/-- C4 amended witness: instantiation at a concrete endpoint with the
interrupt arriving during the second iteration's send. -/
theorem c4_interrupt_amended_w :
    ∃ r, heartbeatRun "localhost" 9999
        { connectErr := none,
          fault := some (1, FaultPoint.duringSend, PyExc.keyboardInterrupt) } = some r ∧
      r.exitCode = 0 ∧ r.uncaught = false ∧
      r.printed = [connectedMsg, interruptedMsgA] :=
  (c4_interrupt_amended "localhost" 9999
    { connectErr := none,
      fault := some (1, FaultPoint.duringSend, PyExc.keyboardInterrupt) }
    1 FaultPoint.duringSend rfl rfl).1

/-- C5 counterexample: `heartbeat_client.py` also exits with status 1 when a
generic `OSError` (outside the three disconnect classes) occurs after a
successful connect, so "exits with status 1 exactly when the initial connect
fails" and "status 0 in every other terminating execution" are both false. -/
theorem c5_client_exit_one_without_connect_failure :
    (heartbeatClientRun "localhost" 9999
        { connectErr := none,
          fault := some (2, FaultPoint.duringSend, PyExc.osError) }).map
      (fun r => (r.exitCode, r.uncaught)) = some (1, false) := by
  rfl

/-- C5 amended: `heartbeat_client.py` exits 0 exactly when a post-connect send
fails with one of the three caught disconnect errors; it exits 1 on connect
failure and on any other post-connect `Exception`, and terminates non-zero
with an unhandled fault on `KeyboardInterrupt`.  `heartbeat.py` exits 0
exactly when the post-connect exception is a caught disconnect
(`ConnectionResetError`, `BrokenPipeError`) or `KeyboardInterrupt`. -/
theorem c5_exit_codes_amended (host : String) (port : Int) (env : Env) :
    (∀ r, heartbeatClientRun host port env = some r →
      (r.exitCode = 0 ↔ env.connectErr = none ∧
        ∃ n pt e, env.fault = some (n, pt, e) ∧ caughtByClientInnerExcept e = true)) ∧
    (∀ r, heartbeatRun host port env = some r →
      (r.exitCode = 0 ↔ env.connectErr = none ∧
        ∃ n pt e, env.fault = some (n, pt, e) ∧
          (caughtByHeartbeatExcept e = true ∨ e = PyExc.keyboardInterrupt))) := by
  obtain ⟨ce, f⟩ := env
  constructor <;> intro r hr
  · rcases ce with _ | e
    · rcases f with _ | ⟨n, pt, e⟩
      · exact absurd hr (by simp [heartbeatClientRun])
      · cases e <;>
          simp [heartbeatClientRun, caughtByClientInnerExcept, PyExc.isException] at hr <;>
          simp [← hr, caughtByClientInnerExcept] <;>
          exact ⟨n, pt, _, ⟨rfl, rfl, rfl⟩, rfl⟩
    · cases e <;> simp [heartbeatClientRun, PyExc.isException] at hr <;> simp [← hr]
  · rcases ce with _ | e
    · rcases f with _ | ⟨n, pt, e⟩
      · exact absurd hr (by simp [heartbeatRun])
      · cases e <;>
          simp [heartbeatRun, caughtByHeartbeatExcept] at hr <;>
          simp [← hr, caughtByHeartbeatExcept] <;>
          first
          | exact ⟨n, pt, _, ⟨rfl, rfl, rfl⟩, Or.inl rfl⟩
          | exact ⟨n, pt, _, ⟨rfl, rfl, rfl⟩, Or.inr rfl⟩
    · simp [heartbeatRun] at hr
      simp [← hr]

/-- C5 amended witness: at a concrete environment whose post-connect fault is
a caught `BrokenPipeError`, the client's exit status is 0. -/
theorem c5_exit_codes_amended_w :
    heartbeatClientRun "localhost" 9999
        { connectErr := none,
          fault := some (0, FaultPoint.duringSend, PyExc.brokenPipeError) } =
      some { events := [Event.create, Event.connectTo "localhost" 9999, Event.close],
             printed := [connectedMsg, lostMsgB], exitCode := 0, uncaught := false } ∧
    (0 : Nat) = 0 :=
  ⟨by rfl,
   ((c5_exit_codes_amended "localhost" 9999
      { connectErr := none,
        fault := some (0, FaultPoint.duringSend, PyExc.brokenPipeError) }).1
      { events := [Event.create, Event.connectTo "localhost" 9999, Event.close],
        printed := [connectedMsg, lostMsgB], exitCode := 0, uncaught := false }
      (by rfl)).mpr ⟨rfl, 0, FaultPoint.duringSend, PyExc.brokenPipeError, rfl, rfl⟩⟩

theorem getLast?_fault_shape (host : String) (port : Int) (n : Nat) (pt : FaultPoint) :
    (Event.create :: Event.connectTo host port ::
      (faultEvents n pt ++ [Event.close])).getLast? = some Event.close := by
  have h : ((Event.create :: Event.connectTo host port :: faultEvents n pt) ++
      [Event.close]).getLast? = some Event.close := List.getLast?_concat _
  simpa using h

/-- C6: in both variants every terminating run creates the socket exactly
once, closes it exactly once, and the close is the last event — the socket is
released on every exit path: connect failure, caught disconnect, interrupt,
and unhandled post-connect faults alike. -/
theorem c6_socket_created_once_closed_always (host : String) (port : Int) (env : Env) :
    (∀ r, heartbeatRun host port env = some r →
      r.events.count Event.create = 1 ∧ r.events.count Event.close = 1 ∧
      r.events.getLast? = some Event.close) ∧
    (∀ r, heartbeatClientRun host port env = some r →
      r.events.count Event.create = 1 ∧ r.events.count Event.close = 1 ∧
      r.events.getLast? = some Event.close) := by
  constructor <;> intro r hr
  · rcases heartbeatRun_shape host port env r hr with
      ⟨e, _, hev⟩ | ⟨n, pt, e, _, _, hev⟩ <;> rw [hev]
    · refine ⟨by simp [List.count_cons], by simp [List.count_cons], rfl⟩
    · have h1 : (faultEvents n pt).count Event.create = 0 :=
        count_faultEvents_eq_zero (by simp) (by simp) n pt
      have h2 : (faultEvents n pt).count Event.close = 0 :=
        count_faultEvents_eq_zero (by simp) (by simp) n pt
      exact ⟨by simp [List.count_cons, List.count_append, h1],
             by simp [List.count_cons, List.count_append, h2],
             getLast?_fault_shape host port n pt⟩
  · rcases heartbeatClientRun_shape host port env r hr with
      ⟨e, _, hev⟩ | ⟨n, pt, e, _, _, hev⟩ <;> rw [hev]
    · refine ⟨by simp [List.count_cons], by simp [List.count_cons], rfl⟩
    · have h1 : (faultEvents n pt).count Event.create = 0 :=
        count_faultEvents_eq_zero (by simp) (by simp) n pt
      have h2 : (faultEvents n pt).count Event.close = 0 :=
        count_faultEvents_eq_zero (by simp) (by simp) n pt
      exact ⟨by simp [List.count_cons, List.count_append, h1],
             by simp [List.count_cons, List.count_append, h2],
             getLast?_fault_shape host port n pt⟩

/-- C6 witness: the concrete run in which the connect is refused creates and
closes the socket exactly once, with the close last, in both variants. -/
theorem c6_socket_created_once_closed_always_w :
    ∀ r, heartbeatRun "localhost" 9999
        { connectErr := some PyExc.connectionRefusedError, fault := none } = some r →
      r.events.count Event.create = 1 ∧ r.events.count Event.close = 1 ∧
      r.events.getLast? = some Event.close :=
  (c6_socket_created_once_closed_always "localhost" 9999
    { connectErr := some PyExc.connectionRefusedError, fault := none }).1

/-- C7: when the connect fails, both variants terminate after exactly one
connection attempt, and the trace holds no send at all: no heartbeat bytes
are ever written before a successful connect, and there is no retry or
reconnection. -/
theorem c7_single_connect_no_send_on_failure (host : String) (port : Int)
    (env : Env) (e : PyExc) (hc : env.connectErr = some e) :
    (∃ r, heartbeatRun host port env = some r ∧
      r.events.count (Event.connectTo host port) = 1 ∧
      ∀ p, Event.send p ∉ r.events) ∧
    (∃ r, heartbeatClientRun host port env = some r ∧
      r.events.count (Event.connectTo host port) = 1 ∧
      ∀ p, Event.send p ∉ r.events) := by
  obtain ⟨ce, f⟩ := env
  obtain rfl : ce = some e := hc
  constructor
  · exact ⟨_, rfl, by simp [List.count_cons], by intro p; simp⟩
  · cases e <;>
      exact ⟨_, rfl, by simp [List.count_cons], by intro p; simp⟩

/-- C7 witness: instantiation at a concrete endpoint with the connect
refused. -/
theorem c7_single_connect_no_send_on_failure_w :
    ∃ r, heartbeatRun "localhost" 9999
        { connectErr := some PyExc.connectionRefusedError, fault := none } = some r ∧
      r.events.count (Event.connectTo "localhost" 9999) = 1 ∧
      ∀ p, Event.send p ∉ r.events :=
  (c7_single_connect_no_send_on_failure "localhost" 9999
    { connectErr := some PyExc.connectionRefusedError, fault := none }
    PyExc.connectionRefusedError rfl).1

/-- C8: the two variants are observationally equivalent on the wire: for every
endpoint and every environment (peer behavior), the two runs either both run
forever or both terminate with exactly the same sequence of send and sleep
events — the same heartbeat payloads at the same cadence — however the
connection ends. -/
theorem c8_wire_equivalence (host : String) (port : Int) (env : Env) :
    (heartbeatRun host port env).map wireEvents =
      (heartbeatClientRun host port env).map wireEvents := by
  obtain ⟨ce, f⟩ := env
  rcases ce with _ | e
  · rcases f with _ | ⟨n, pt, e⟩
    · rfl
    · cases e <;>
        simp [heartbeatRun, heartbeatClientRun, caughtByHeartbeatExcept,
          caughtByClientInnerExcept, PyExc.isException, wireEvents]
  · cases e <;>
      simp [heartbeatRun, heartbeatClientRun, PyExc.isException, wireEvents]

/-- C9: in `heartbeat_client.py`, a post-connect `Exception` outside the three
disconnect classes (for example a generic `OSError` from send) escapes the
inner clause and is caught by the outer `except Exception` handler: the
could-not-connect line is printed, the exit status is 1, nothing is unhandled
— the same final message and exit status as an actual connect failure with
the same exception. -/
theorem c9_client_outer_handler (host : String) (port : Int) (env : Env)
    (n : Nat) (pt : FaultPoint) (e : PyExc)
    (hc : env.connectErr = none) (hf : env.fault = some (n, pt, e))
    (he : e.isException = true) (hnd : caughtByClientInnerExcept e = false) :
    ∃ r, heartbeatClientRun host port env = some r ∧
      r.uncaught = false ∧ r.exitCode = 1 ∧
      r.printed.getLast? = some (couldNotConnectMsg e) ∧
      (∀ env2 r2, env2.connectErr = some e →
        heartbeatClientRun host port env2 = some r2 →
        r2.exitCode = r.exitCode ∧ r2.printed.getLast? = r.printed.getLast?) := by
  obtain ⟨ce, f⟩ := env
  obtain rfl : ce = none := hc
  obtain rfl : f = some (n, pt, e) := hf
  have hrun : heartbeatClientRun host port ⟨none, some (n, pt, e)⟩ =
      some { events := Event.create :: Event.connectTo host port ::
               (faultEvents n pt ++ [Event.close]),
             printed := [connectedMsg, couldNotConnectMsg e],
             exitCode := 1, uncaught := false } := by
    cases e <;> simp_all [heartbeatClientRun, caughtByClientInnerExcept, PyExc.isException]
  refine ⟨_, hrun, rfl, rfl, rfl, ?_⟩
  intro env2 r2 hc2 hr2
  obtain ⟨ce2, f2⟩ := env2
  obtain rfl : ce2 = some e := hc2
  have hr2' : heartbeatClientRun host port ⟨some e, f2⟩ =
      some { events := [Event.create, Event.connectTo host port, Event.close],
             printed := [couldNotConnectMsg e], exitCode := 1, uncaught := false } := by
    cases e <;> simp_all [heartbeatClientRun, PyExc.isException]
  rw [hr2'] at hr2
  cases hr2
  exact ⟨rfl, rfl⟩

/-- C9 witness: instantiation at a concrete endpoint, with a generic `OSError`
raised by the first send after a successful connect. -/
theorem c9_client_outer_handler_w :
    ∃ r, heartbeatClientRun "localhost" 9999
        { connectErr := none,
          fault := some (0, FaultPoint.duringSend, PyExc.osError) } = some r ∧
      r.uncaught = false ∧ r.exitCode = 1 ∧
      r.printed.getLast? = some (couldNotConnectMsg PyExc.osError) ∧
      (∀ env2 r2, env2.connectErr = some PyExc.osError →
        heartbeatClientRun "localhost" 9999 env2 = some r2 →
        r2.exitCode = r.exitCode ∧ r2.printed.getLast? = r.printed.getLast?) :=
  c9_client_outer_handler "localhost" 9999
    { connectErr := none, fault := some (0, FaultPoint.duringSend, PyExc.osError) }
    0 FaultPoint.duringSend PyExc.osError rfl rfl rfl rfl

/-- C10: once the connection is established, the send loop has no
exception-free exit in either variant: the run fails to terminate exactly
when no exception is ever raised in the loop, so termination after a
successful connect is reachable only through a raised exception. -/
theorem c10_no_exception_free_exit (host : String) (port : Int) (env : Env)
    (hc : env.connectErr = none) :
    (heartbeatRun host port env = none ↔ env.fault = none) ∧
    (heartbeatClientRun host port env = none ↔ env.fault = none) := by
  obtain ⟨ce, f⟩ := env
  obtain rfl : ce = none := hc
  rcases f with _ | ⟨n, pt, e⟩
  · exact ⟨⟨fun _ => rfl, fun _ => rfl⟩, ⟨fun _ => rfl, fun _ => rfl⟩⟩
  · constructor <;> constructor
    · intro h
      cases e <;> simp [heartbeatRun, caughtByHeartbeatExcept] at h
    · intro h
      exact Option.noConfusion h
    · intro h
      cases e <;>
        simp [heartbeatClientRun, caughtByClientInnerExcept, PyExc.isException] at h
    · intro h
      exact Option.noConfusion h

/-- C10 witness: at a concrete endpoint, with the connect successful, the run
with no fault does not terminate and the run with a reset at iteration 0
does terminate, in both variants. -/
theorem c10_no_exception_free_exit_w :
    heartbeatRun "localhost" 9999 { connectErr := none, fault := none } = none ∧
    heartbeatClientRun "localhost" 9999
      { connectErr := none,
        fault := some (0, FaultPoint.duringSend, PyExc.connectionResetError) } ≠ none :=
  ⟨(c10_no_exception_free_exit "localhost" 9999
      { connectErr := none, fault := none } rfl).1.mpr rfl,
   fun h =>
    Option.noConfusion
      ((c10_no_exception_free_exit "localhost" 9999
        { connectErr := none,
          fault := some (0, FaultPoint.duringSend, PyExc.connectionResetError) }
        rfl).2.mp h)⟩
